import Mathlib

/-!
Verification development for the chunked-recording upload routes of the vapi
repository: the chunk-upload handler and its `getBucket`/`isValidSessionId`
helpers (`app/api/recording/chunk/route.ts`, embedded below as `chunkPOST`),
the manifest handler (`app/api/recording/complete/route.ts`, embedded as
`manifestPOST`), the health-check proxy (`app/api/vapi/health/route.ts`,
embedded as `healthPOST`), and the session-recorder `stop()` contract.
Storage is embedded as an explicit state (`Store`); environment configuration
as an explicit record (`Env`); JavaScript truthiness of environment strings
and JS numbers are modelled explicitly.
-/

namespace Vapi

/-- Truthiness of an optional environment string in JavaScript: `undefined`
and the empty string are both falsy, so `process.env.X || y` falls through on
both. -/
def strTruthy : Option String → Bool
  | none => false
  | some s => s ≠ ""

/-- JS `a || b` on optional environment strings. -/
def jsOr (a b : Option String) : Option String :=
  if strTruthy a then a else b

/-- JS `a || d` where the fallback is a string literal (always truthy). -/
def jsOrD (a : Option String) (d : String) : String :=
  match a with
  | some s => if s ≠ "" then s else d
  | none => d

/-- JS `String.prototype.includes` via `splitOn`: the needle occurs iff
splitting on it yields at least two pieces. -/
def jsIncludes (s needle : String) : Bool :=
  2 ≤ (s.splitOn needle).length

/-- JS `String.prototype.padStart(w, c)`: prepend copies of `c` until the
length reaches `w`; a string already at least `w` long is returned unchanged
(the `Nat` subtraction truncates at zero). -/
def padStart (s : String) (w : Nat) (c : Char) : String :=
  String.mk (List.replicate (w - s.length) c) ++ s

/-- An idealized JavaScript number: NaN, the two infinities, or a finite
value (modelled as a rational; no claim needs the double-precision grid). -/
inductive JSNum where
  | nan : JSNum
  | posInf : JSNum
  | negInf : JSNum
  | num : ℚ → JSNum
deriving DecidableEq

/-- `Number.isFinite`. -/
def JSNum.isFinite : JSNum → Bool
  | num _ => true
  | _ => false

/-- JS `x < 0` (false for NaN, true for -Infinity). -/
def JSNum.ltZero : JSNum → Bool
  | num q => q < 0
  | negInf => true
  | _ => false

/-- The index guard of the chunk route (`route.ts` lines 195-198): the
request is rejected with the invalid-index error iff
`!Number.isFinite(index) || index < 0`; this is the accepted side. -/
def indexAccepted (n : JSNum) : Bool :=
  n.isFinite && !n.ltZero

/-- Character class of the session-id regex `[a-zA-Z0-9-_]`. -/
def isSafeChar (c : Char) : Bool :=
  (('a' ≤ c) && (c ≤ 'z')) || (('A' ≤ c) && (c ≤ 'Z')) ||
  (('0' ≤ c) && (c ≤ '9')) || c = '-' || c = '_'

/-- `isValidSessionId` (`route.ts` lines 180-183): the whole string matches
`[a-zA-Z0-9-_]` repeated at least six times — every character is in the
class and the length is at least six. -/
def isValidSessionId (id : String) : Bool :=
  6 ≤ id.length && id.data.all isSafeChar

/-- Extension derivation of the chunk route (line 204):
`mimeType.includes('webm') ? 'webm' : 'bin'`. -/
def chunkExt (mimeType : String) : String :=
  if jsIncludes mimeType ("webm") then "webm" else "bin"

/-- Object key computed by the chunk route (lines 203-205) for an integral
parsed index: `sessionId + "/chunks/" + String(index).padStart(6,'0') + "." +
ext`. -/
def chunkObjectPath (sessionId : String) (index : Int) (mimeType : String) : String :=
  sessionId ++ "/chunks/" ++ padStart (Int.repr index) 6 '0' ++ "." ++ chunkExt mimeType

/-- Environment configuration consumed by the routes; `none` models an unset
variable. -/
structure Env where
  gcpServiceAccountKey : Option String := none
  gcpServiceAccountJson : Option String := none
  googleApplicationCredentialsJson : Option String := none
  gcpServiceAccountKeyBase64 : Option String := none
  googleCloudProjectId : Option String := none
  gcpProjectId : Option String := none
  googleCloudClientEmail : Option String := none
  googleApplicationCredentials : Option String := none
  googleCloudPrivateKey : Option String := none
  googleCloudBucketName : Option String := none
  gcpBucketName : Option String := none
  googleCloudStorageBaseUrl : Option String := none
  googleCloudPublicRead : Option String := none
  vapiServerApiKey : Option String := none
deriving DecidableEq

/-- `resolveBucketName()`:
`GOOGLE_CLOUD_BUCKET_NAME || GCP_BUCKET_NAME || 'vapi_video_recording'`. -/
def resolveBucketName (env : Env) : String :=
  jsOrD (jsOr env.googleCloudBucketName env.gcpBucketName) ("vapi_video_recording")

/-- `publicBaseUrl()`:
`GOOGLE_CLOUD_STORAGE_BASE_URL || 'https://storage.googleapis.com'`. -/
def publicBaseUrl (env : Env) : String :=
  jsOrD env.googleCloudStorageBaseUrl ("https://storage.googleapis.com")

/-- Which credential source a `getBucket` call ended up constructing the
storage client from. -/
inductive CredSource where
  | inlineJson : String → CredSource
  | discreteFields : String → String → String → CredSource
  | ambient : CredSource
deriving DecidableEq

/-- The inline service-account payload: the first truthy of
`GCP_SERVICE_ACCOUNT_KEY || GCP_SERVICE_ACCOUNT_JSON ||
GOOGLE_APPLICATION_CREDENTIALS_JSON || GCP_SERVICE_ACCOUNT_KEY_BASE64`
(identical in both routes). -/
def saJsonRawOf (env : Env) : Option String :=
  jsOr (jsOr (jsOr env.gcpServiceAccountKey env.gcpServiceAccountJson)
    env.googleApplicationCredentialsJson) env.gcpServiceAccountKeyBase64

/-- Credential resolution of the chunk route's `getBucket` (lines 91-174).
`b64JsonOk km` abstracts the library step "base64-decode `km` and
`JSON.parse` the result succeed"; the surrounding branch structure is the
route's own.  Branch order: inline JSON payload first; then the discrete
fields `(GOOGLE_CLOUD_PROJECT_ID || GCP_PROJECT_ID)`,
`GOOGLE_CLOUD_CLIENT_EMAIL`, `(GOOGLE_APPLICATION_CREDENTIALS ||
GOOGLE_CLOUD_PRIVATE_KEY)` with the key material recognized as raw JSON, PEM,
or base64 JSON; otherwise ambient default credentials. -/
def resolveCredChunk (b64JsonOk : String → Bool) (env : Env) : CredSource :=
  let saJsonRaw := saJsonRawOf env
  let gcProjectId := jsOr env.googleCloudProjectId env.gcpProjectId
  let gcClientEmail := env.googleCloudClientEmail
  let gcPrivateKeyMaybe := jsOr env.googleApplicationCredentials env.googleCloudPrivateKey
  if strTruthy saJsonRaw then
    CredSource.inlineJson (saJsonRaw.getD (""))
  else if strTruthy gcProjectId && strTruthy gcClientEmail && strTruthy gcPrivateKeyMaybe then
    let km := gcPrivateKeyMaybe.getD ("")
    if (km.trim).startsWith ("\x7b") then
      CredSource.discreteFields (gcProjectId.getD ("")) (gcClientEmail.getD ("")) km
    else if jsIncludes km ("BEGIN PRIVATE KEY") then
      CredSource.discreteFields (gcProjectId.getD ("")) (gcClientEmail.getD ("")) km
    else if b64JsonOk km then
      CredSource.discreteFields (gcProjectId.getD ("")) (gcClientEmail.getD ("")) km
    else
      CredSource.ambient
  else
    CredSource.ambient

/-- Credential resolution of the manifest route's `getBucket`
(complete/route.ts lines 14-55): same inline payload first; then the three
discrete variables `GOOGLE_CLOUD_PROJECT_ID`, `GOOGLE_CLOUD_CLIENT_EMAIL`,
`GOOGLE_APPLICATION_CREDENTIALS` (key material used as PEM directly);
otherwise ambient default credentials. -/
def resolveCredManifest (env : Env) : CredSource :=
  let saJsonRaw := saJsonRawOf env
  if strTruthy saJsonRaw then
    CredSource.inlineJson (saJsonRaw.getD (""))
  else if strTruthy env.googleCloudProjectId && strTruthy env.googleCloudClientEmail &&
      strTruthy env.googleApplicationCredentials then
    CredSource.discreteFields (env.googleCloudProjectId.getD (""))
      (env.googleCloudClientEmail.getD ("")) (env.googleApplicationCredentials.getD (""))
  else
    CredSource.ambient

/-- The manifest record built by the manifest route (lines 65-74): exactly
these eight fields. -/
structure Manifest where
  sessionId : String
  totalChunks : Int
  mimeType : String
  startedAt : Int
  endedAt : Int
  uploadedAt : String
  bucket : String
  version : Nat
deriving DecidableEq

/-- Value of a stored object: raw segment bytes or a manifest record (the
route serializes the latter as JSON; the serialization itself carries no
claim). -/
inductive StoredValue where
  | bytes : List Nat → StoredValue
  | manifestVal : Manifest → StoredValue
deriving DecidableEq

/-- A stored object with its content type and public-read ACL flag. -/
structure GObject where
  value : StoredValue
  contentType : String
  isPublic : Bool
deriving DecidableEq

/-- State of the bucket: objects by key (`file.save` overwrites the key), and
a counter of every attempted object write, successful or not. -/
structure Store where
  objects : List (String × GObject)
  writeAttempts : Nat
deriving DecidableEq

/-- `file.save`'s effect on a key that succeeds: overwrite. -/
def putObject (s : Store) (k : String) (o : GObject) : Store :=
  { s with objects := (k, o) :: s.objects.filter (fun p => p.1 ≠ k) }

/-- Read back the object at a key. -/
def getObject (s : Store) (k : String) : Option GObject :=
  (s.objects.find? (fun p => p.1 = k)).map Prod.snd

/-- Count one `file.save` attempt. -/
def recordAttempt (s : Store) : Store :=
  { s with writeAttempts := s.writeAttempts + 1 }

/-- `file.makePublic()`'s effect when it succeeds. -/
def setPublic (s : Store) (k : String) : Store :=
  { s with objects := s.objects.map fun p =>
      if p.1 = k then (p.1, { p.2 with isPublic := true }) else p }

/-- Caller-visible result of the chunk route. -/
inductive ChunkResult where
  | invalidSession : ChunkResult
  | invalidIndex : ChunkResult
  | serverError : ChunkResult
  | ok : String → String → ChunkResult
deriving DecidableEq

/-- Outcome of one chunk-route call: the response, the resulting bucket
state, and which credential source was resolved (`none` when the request was
rejected before `getBucket()` ran). -/
structure ChunkOutcome where
  result : ChunkResult
  store : Store
  credUsed : Option CredSource
deriving DecidableEq

/-- Embedding of the chunk-upload POST handler (chunk route lines 185-240).
`index` is the integral value `Number(indexStr)` produced for the request
(the same guard over the whole JS-number domain is `indexAccepted`);
`writeFails` is whether `file.save` rejects, `aclFails` whether
`file.makePublic` rejects.  Validation runs before the body is read and
before `getBucket()`; the key is computed, the object saved with the request
mime type, `makePublic` attempted only under `GOOGLE_CLOUD_PUBLIC_READ ===
'true'` and with its failure swallowed, and the response carries the key and
the public address. -/
def chunkPOST (b64JsonOk : String → Bool) (env : Env) (store : Store)
    (sessionId : String) (index : Int) (mimeType : String) (payload : List Nat)
    (writeFails aclFails : Bool) : ChunkOutcome :=
  if sessionId = "" || !isValidSessionId sessionId then
    ⟨ChunkResult.invalidSession, store, none⟩
  else if !indexAccepted (JSNum.num (index : ℚ)) then
    ⟨ChunkResult.invalidIndex, store, none⟩
  else
    let objectPath := chunkObjectPath sessionId index mimeType
    let cred := resolveCredChunk b64JsonOk env
    let store1 := recordAttempt store
    if writeFails then
      ⟨ChunkResult.serverError, store1, some cred⟩
    else
      let store2 := putObject store1 objectPath ⟨StoredValue.bytes payload, mimeType, false⟩
      let store3 :=
        if env.googleCloudPublicRead = some ("true") && !aclFails then
          setPublic store2 objectPath
        else store2
      ⟨ChunkResult.ok objectPath
        (publicBaseUrl env ++ "/" ++ resolveBucketName env ++ "/" ++ objectPath),
        store3, some cred⟩

/-- Request body of the manifest route, after JSON parsing.  `sessionId` is
modelled as the string case (the route rejects empty or non-string values;
the non-string case is outside a `String`-typed embedding and carries no
claim); a `none` in the numeric fields models an absent field, whose
`Number(...)` coercion is NaN and falls through `|| fallback`. -/
structure ManifestBody where
  sessionId : String
  totalChunks : Option Int
  mimeType : Option String
  startedAt : Option Int
  endedAt : Option Int
deriving DecidableEq

/-- `Number(x) || 0` for a present-integral-or-absent field. -/
def intOrZero : Option Int → Int
  | some n => if n ≠ 0 then n else 0
  | none => 0

/-- `Number(x) || d` for a present-integral-or-absent field: zero and NaN
both fall through to `d`. -/
def intOrD (o : Option Int) (d : Int) : Int :=
  match o with
  | some n => if n ≠ 0 then n else d
  | none => d

/-- Caller-visible result of the manifest route. -/
inductive ManifestResult where
  | sessionRequired : ManifestResult
  | serverError : ManifestResult
  | ok : String → String → ManifestResult
deriving DecidableEq

/-- Outcome of one manifest-route call. -/
structure ManifestOutcome where
  result : ManifestResult
  store : Store
  credUsed : Option CredSource
deriving DecidableEq

/-- Embedding of the manifest POST handler (complete/route.ts lines 57-101).
The only validation is that `sessionId` is a non-empty string; the manifest
record is then built with a server-assigned `uploadedAt` (`nowIso`) and
`Date.now()` fallbacks (`nowMs`), and written to the fixed key
`sessionId + "/manifest.json"`, overwriting any prior object there;
`makePublic` failures are swallowed exactly as in the chunk route. -/
def manifestPOST (env : Env) (store : Store) (body : ManifestBody)
    (nowMs : Int) (nowIso : String) (writeFails aclFails : Bool) : ManifestOutcome :=
  if body.sessionId = "" then
    ⟨ManifestResult.sessionRequired, store, none⟩
  else
    let manifest : Manifest :=
      ⟨body.sessionId, intOrZero body.totalChunks, jsOrD body.mimeType ("video/webm"),
        intOrD body.startedAt nowMs, intOrD body.endedAt nowMs, nowIso,
        resolveBucketName env, 1⟩
    let manifestPath := body.sessionId ++ "/manifest.json"
    let cred := resolveCredManifest env
    let store1 := recordAttempt store
    if writeFails then
      ⟨ManifestResult.serverError, store1, some cred⟩
    else
      let store2 := putObject store1 manifestPath
        ⟨StoredValue.manifestVal manifest, "application/json", false⟩
      let store3 :=
        if env.googleCloudPublicRead = some ("true") && !aclFails then
          setPublic store2 manifestPath
        else store2
      ⟨ManifestResult.ok manifestPath
        (publicBaseUrl env ++ "/" ++ resolveBucketName env ++ "/" ++ manifestPath),
        store3, some cred⟩

/-- Response of the upstream voice-API listing used by the health route. -/
inductive UpstreamResp where
  | ok : Nat → UpstreamResp
  | fail : Nat → String → UpstreamResp
deriving DecidableEq

/-- Caller-visible result of the health route; the last field of `healthy`
is the `usedKey` marker, `"server"` or `"client"`. -/
inductive HealthResult where
  | keyRequired : HealthResult
  | upstreamError : Nat → String → HealthResult
  | healthy : Nat → String → HealthResult
deriving DecidableEq

/-- Embedding of the health POST handler (health/route.ts): the key used is
`VAPI_SERVER_API_KEY || providedKey`; a falsy combined key is a 400; the
upstream assistant listing is queried with the chosen key and its outcome
forwarded. -/
def healthPOST (upstream : String → UpstreamResp) (serverKey providedKey : Option String) :
    HealthResult :=
  let apiKey := jsOr serverKey providedKey
  if !strTruthy apiKey then
    HealthResult.keyRequired
  else
    match upstream (apiKey.getD ("")) with
    | UpstreamResp.fail status body => HealthResult.upstreamError status body
    | UpstreamResp.ok count =>
        HealthResult.healthy count (if strTruthy serverKey then "server" else "client")

/-- Lifecycle states of the session recorder (spec section 4.1). -/
inductive RecState where
  | idle : RecState
  | recording : RecState
  | stopped : RecState
deriving DecidableEq

/-- Modelled from the spec: the chunk-uploading session-recorder client
(described in the repository README under "Chunked Uploads to GCP" and in
spec sections 4.1 and 8) is not among the provided source files — only the
server routes it calls are.  Its state: lifecycle state, the number of
segments already flushed, and the bytes buffered since the last tick. -/
structure Recorder where
  state : RecState
  flushed : Nat
  pendingBuf : List Nat
deriving DecidableEq

/-- An externally visible action the recorder dispatches to the upload
coordinator. -/
inductive RecorderAction where
  | uploadSegment : Nat → List Nat → RecorderAction
  | writeManifest : Nat → RecorderAction
deriving DecidableEq

/-- Modelled from the spec: `stop()` (spec section 4.1) stops capture,
flushes a non-empty pending buffer as one final segment, transitions to
Stopped, and triggers manifest finalization with `totalChunks` equal to the
total number of segments flushed, including the final partial one.  Called
outside the Recording state it does nothing (the page guards the call on the
recording flag). -/
def recStop (r : Recorder) : Recorder × List RecorderAction :=
  if r.state = RecState.recording then
    let finalSeg :=
      if r.pendingBuf ≠ [] then [RecorderAction.uploadSegment r.flushed r.pendingBuf] else []
    let total := r.flushed + (if r.pendingBuf ≠ [] then 1 else 0)
    (⟨RecState.stopped, total, []⟩, finalSeg ++ [RecorderAction.writeManifest total])
  else
    (r, [])

/-- Number of manifest-write attempts among a list of recorder actions. -/
def manifestWrites (as : List RecorderAction) : Nat :=
  (as.filter (fun a => match a with
    | RecorderAction.writeManifest _ => true
    | _ => false)).length

/-! Decimal-digit characterization of `Nat.repr`, used to reason about the
zero-padded chunk keys. -/

/-- The decimal digit characters of `n`, most significant first; shown below
to agree with `Nat.repr`. -/
def natToChars (n : Nat) : List Char :=
  if h : n < 10 then [Nat.digitChar n]
  else
    have : n / 10 < n := Nat.div_lt_self (by omega) (by omega)
    natToChars (n / 10) ++ [Nat.digitChar (n % 10)]

/-- Width-`w` little-endian-built decimal digit string of `n` (leading zeros
included). -/
def fixedDigits : Nat → Nat → List Char
  | 0, _ => []
  | w + 1, n => fixedDigits w (n / 10) ++ [Nat.digitChar (n % 10)]

theorem natToChars_lt {n : Nat} (h : n < 10) : natToChars n = [Nat.digitChar n] := by
  rw [natToChars]
  simp [h]

theorem natToChars_ge {n : Nat} (h : ¬ n < 10) :
    natToChars n = natToChars (n / 10) ++ [Nat.digitChar (n % 10)] := by
  rw [natToChars]
  simp [h]

theorem toDigitsCore_eq (fuel : Nat) : ∀ (n : Nat) (ds : List Char), n < fuel →
    Nat.toDigitsCore 10 fuel n ds = natToChars n ++ ds := by
  induction fuel with
  | zero => omega
  | succ fuel ih =>
    intro n ds h
    rw [Nat.toDigitsCore]
    by_cases h10 : n < 10
    · have hq : n / 10 = 0 := Nat.div_eq_of_lt h10
      simp only [hq, if_pos rfl]
      rw [natToChars_lt h10, Nat.mod_eq_of_lt h10]
      rfl
    · have hq : ¬ n / 10 = 0 := by omega
      simp only [hq, if_neg]
      rw [ih (n / 10) _ (by omega), natToChars_ge h10, List.append_assoc]
      rfl

theorem repr_eq_natToChars (n : Nat) : Nat.repr n = (natToChars n).asString := by
  show (Nat.toDigits 10 n).asString = _
  rw [Nat.toDigits, toDigitsCore_eq (n + 1) n [] (Nat.lt_succ_self n), List.append_nil]

theorem fixedDigits_length (w : Nat) : ∀ n, (fixedDigits w n).length = w := by
  induction w with
  | zero => intro n; rfl
  | succ w ih => intro n; simp [fixedDigits, ih]

theorem fixedDigits_zero (w : Nat) : fixedDigits w 0 = List.replicate w '0' := by
  induction w with
  | zero => rfl
  | succ w ih =>
    rw [fixedDigits]
    simp only [Nat.zero_div, Nat.zero_mod, ih, List.replicate_succ']
    rfl

theorem natToChars_length_le (w : Nat) : ∀ n, 1 ≤ w → n < 10 ^ w →
    (natToChars n).length ≤ w := by
  induction w with
  | zero => omega
  | succ w ih =>
    intro n _ h
    by_cases h10 : n < 10
    · rw [natToChars_lt h10]
      simp only [List.length_singleton]
      omega
    · rw [natToChars_ge h10]
      rcases Nat.eq_zero_or_pos w with hw0 | hwpos
      · subst hw0
        rw [pow_one] at h
        omega
      · have hdiv : n / 10 < 10 ^ w := by
          rw [Nat.div_lt_iff_lt_mul (by norm_num : (0:Nat) < 10), ← pow_succ]
          exact h
        have hl := ih (n / 10) hwpos hdiv
        simp only [List.length_append, List.length_singleton]
        omega

theorem pad_eq_fixedDigits (w : Nat) : ∀ n, 1 ≤ w → n < 10 ^ w →
    List.replicate (w - (natToChars n).length) '0' ++ natToChars n = fixedDigits w n := by
  induction w with
  | zero => omega
  | succ w ih =>
    intro n _ h
    by_cases h10 : n < 10
    · rw [natToChars_lt h10, fixedDigits, Nat.div_eq_of_lt h10, Nat.mod_eq_of_lt h10,
        fixedDigits_zero]
      simp only [List.length_singleton, Nat.add_sub_cancel]
    · rw [natToChars_ge h10]
      rcases Nat.eq_zero_or_pos w with hw0 | hwpos
      · subst hw0
        rw [pow_one] at h
        omega
      · have hdiv : n / 10 < 10 ^ w := by
          rw [Nat.div_lt_iff_lt_mul (by norm_num : (0:Nat) < 10), ← pow_succ]
          exact h
        have ihh := ih (n / 10) hwpos hdiv
        rw [fixedDigits, ← ihh]
        simp only [List.length_append, List.length_singleton]
        have hsub : w + 1 - ((natToChars (n / 10)).length + 1) =
            w - (natToChars (n / 10)).length := by omega
        rw [hsub, List.append_assoc]

/-! Lexicographic-order lemmas on character lists (the order `String`'s `<`
relates to via `String.lt_iff_toList_lt`). -/

theorem lex_append_of_lt : ∀ {as bs : List Char}, List.Lex (· < ·) as bs →
    as.length = bs.length → ∀ (xs ys : List Char),
    List.Lex (· < ·) (as ++ xs) (bs ++ ys) := by
  intro as bs h
  induction h with
  | nil =>
    intro hlen
    simp at hlen
  | @rel a as' b bs' hab =>
    intro _ xs ys
    exact List.Lex.rel hab
  | @cons a as' bs' h ih =>
    intro hlen xs ys
    exact List.Lex.cons (ih (by simpa using hlen) xs ys)

theorem lex_append_left (l : List Char) {as bs : List Char}
    (h : List.Lex (· < ·) as bs) : List.Lex (· < ·) (l ++ as) (l ++ bs) := by
  induction l with
  | nil => simpa using h
  | cons c l ih =>
    simp only [List.cons_append]
    exact List.Lex.cons ih

theorem digitChar_lt_digitChar : ∀ (a b : Fin 10), a.val < b.val →
    Nat.digitChar a.val < Nat.digitChar b.val := by decide

theorem fixedDigits_lt (w : Nat) : ∀ i j, i < j → j < 10 ^ w →
    List.Lex (· < ·) (fixedDigits w i) (fixedDigits w j) := by
  induction w with
  | zero => omega
  | succ w ih =>
    intro i j hij hj
    rw [fixedDigits, fixedDigits]
    rcases Nat.lt_or_ge (i / 10) (j / 10) with hq | hq
    · have hj10 : j / 10 < 10 ^ w := by
        rw [Nat.div_lt_iff_lt_mul (by norm_num : (0:Nat) < 10), ← pow_succ]
        exact hj
      exact lex_append_of_lt (ih _ _ hq hj10)
        (by rw [fixedDigits_length, fixedDigits_length]) _ _
    · have hqe : i / 10 = j / 10 :=
        Nat.le_antisymm (Nat.div_le_div_right (Nat.le_of_lt hij)) hq
      have hr : i % 10 < j % 10 := by omega
      rw [hqe]
      apply lex_append_left
      exact List.Lex.rel
        (digitChar_lt_digitChar ⟨i % 10, Nat.mod_lt _ (by norm_num)⟩
          ⟨j % 10, Nat.mod_lt _ (by norm_num)⟩ hr)

theorem data_asString (l : List Char) : l.asString.data = l := rfl

theorem length_asString (l : List Char) : l.asString.length = l.length := rfl

/-- The characters of a chunk key below the padding capacity: the session
prefix, then exactly the six fixed-width digits, then the extension
suffix. -/
theorem chunkKey_data (sid m : String) (n : Nat) (h : n < 1000000) :
    (chunkObjectPath sid (n : Int) m).data =
      (sid.data ++ String.data ("/chunks/")) ++
        (fixedDigits 6 n ++ String.data ("." ++ chunkExt m)) := by
  have hpow : n < 10 ^ 6 := by
    have : (10:ℕ) ^ 6 = 1000000 := by norm_num
    omega
  rw [← pad_eq_fixedDigits 6 n (by norm_num) hpow]
  unfold chunkObjectPath padStart
  have hir : Int.repr (n : Int) = Nat.repr n := rfl
  rw [hir, repr_eq_natToChars]
  simp only [String.data_append, data_asString, length_asString, List.append_assoc]

/-! Helper lemmas about the store and the request guards. -/

theorem validSessionId_ne_empty {sid : String} (h : isValidSessionId sid = true) :
    sid ≠ "" := by
  intro he
  subst he
  exact absurd h (by decide)

theorem indexAccepted_intCast {i : Int} (hi : 0 ≤ i) :
    indexAccepted (JSNum.num (i : ℚ)) = true := by
  simp only [indexAccepted, JSNum.isFinite, JSNum.ltZero, Bool.true_and,
    Bool.not_eq_true', decide_eq_false_iff_not, not_lt]
  exact_mod_cast hi

theorem indexAccepted_intCast_neg {i : Int} (hi : i < 0) :
    indexAccepted (JSNum.num (i : ℚ)) = false := by
  simp only [indexAccepted, JSNum.isFinite, JSNum.ltZero, Bool.true_and,
    Bool.not_eq_false', decide_eq_true_eq]
  exact_mod_cast hi

theorem getObject_putObject (s : Store) (k : String) (o : GObject) :
    getObject (putObject s k o) k = some o := by
  simp [getObject, putObject, List.find?]

theorem getObject_setPublic (s : Store) (k k' : String) :
    (getObject (setPublic s k') k).map GObject.value =
      (getObject s k).map GObject.value := by
  unfold getObject setPublic
  rw [List.find?_map]
  have hp : ((fun p : String × GObject => decide (p.1 = k)) ∘
      fun p => if p.1 = k' then (p.1, { p.2 with isPublic := true }) else p) =
      fun p : String × GObject => decide (p.1 = k) := by
    funext p
    by_cases hp' : p.1 = k' <;> simp [hp']
  rw [hp]
  cases hfind : s.objects.find? (fun p => decide (p.1 = k)) with
  | none => rfl
  | some q => by_cases hq : q.1 = k' <;> simp [hq]

theorem writeAttempts_putObject (s : Store) (k : String) (o : GObject) :
    (putObject s k o).writeAttempts = s.writeAttempts := rfl

theorem writeAttempts_setPublic (s : Store) (k : String) :
    (setPublic s k).writeAttempts = s.writeAttempts := rfl

theorem writeAttempts_recordAttempt (s : Store) :
    (recordAttempt s).writeAttempts = s.writeAttempts + 1 := rfl

/-- An accepted chunk upload stores its payload under `chunkObjectPath`,
whatever object (if any) previously sat at that key. -/
theorem chunkPOST_overwrites (b64 : String → Bool) (env : Env) (s : Store)
    (sid m : String) (i : Int) (p : List Nat) (af : Bool)
    (hs : isValidSessionId sid = true) (hi : 0 ≤ i) :
    (getObject (chunkPOST b64 env s sid i m p false af).store
      (chunkObjectPath sid i m)).map GObject.value = some (StoredValue.bytes p) := by
  have hne := validSessionId_ne_empty hs
  have hidx := indexAccepted_intCast hi
  simp only [chunkPOST, hne, hs, hidx, decide_eq_true_eq, Bool.not_true, Bool.or_false,
    decide_eq_false_iff_not, not_false_eq_true, Bool.false_or, Bool.not_false,
    if_false, if_true, Bool.false_eq_true, ite_false, ite_true]
  by_cases hpub : (env.googleCloudPublicRead = some ("true") && !af) = true
  · rw [if_pos hpub, getObject_setPublic, getObject_putObject]
    rfl
  · rw [if_neg hpub, getObject_putObject]
    rfl

/-! Claim theorems. -/

/-- C1: for a sessionId passing the validation and any valid index, the chunk
route computes the storage key as the pure function `chunkObjectPath` of
`(sessionId, index, mimeType)` alone: every invocation returns that same key
whatever the environment, prior bucket state, payload, or ACL outcome, so a
duplicate delivery addresses the same object and its payload overwrites the
first delivery's. -/
theorem c1_putSegment_key_deterministic
    (sid m : String) (i : Int) (hs : isValidSessionId sid = true) (hi : 0 ≤ i)
    (b1 b2 : String → Bool) (e1 e2 : Env) (s1 s2 : Store) (p1 p2 : List Nat)
    (a1 a2 : Bool) :
    (∃ u1, (chunkPOST b1 e1 s1 sid i m p1 false a1).result =
      ChunkResult.ok (chunkObjectPath sid i m) u1) ∧
    (∃ u2, (chunkPOST b2 e2 s2 sid i m p2 false a2).result =
      ChunkResult.ok (chunkObjectPath sid i m) u2) ∧
    (getObject (chunkPOST b2 e2 (chunkPOST b1 e1 s1 sid i m p1 false a1).store
        sid i m p2 false a2).store (chunkObjectPath sid i m)).map GObject.value =
      some (StoredValue.bytes p2) := by
  have hne := validSessionId_ne_empty hs
  have hidx := indexAccepted_intCast hi
  refine ⟨⟨publicBaseUrl e1 ++ "/" ++ resolveBucketName e1 ++ "/" ++
      chunkObjectPath sid i m, ?_⟩,
    ⟨publicBaseUrl e2 ++ "/" ++ resolveBucketName e2 ++ "/" ++
      chunkObjectPath sid i m, ?_⟩, ?_⟩
  · simp [chunkPOST, hne, hs, hidx]
  · simp [chunkPOST, hne, hs, hidx]
  · exact chunkPOST_overwrites b2 e2 _ sid m i p2 a2 hs hi

/-- C1 witness at a concrete input. -/
theorem c1_putSegment_key_deterministic_witness :
    ∃ u1, (chunkPOST (fun _ => false) {} ⟨[], 0⟩ ("abc123ts") 3 ("video/webm")
        [1, 2] false false).result =
      ChunkResult.ok (chunkObjectPath ("abc123ts") 3 ("video/webm")) u1 :=
  (c1_putSegment_key_deterministic ("abc123ts") ("video/webm") 3 (by decide)
    (by decide) (fun _ => false) (fun _ => false) {} {} ⟨[], 0⟩ ⟨[], 0⟩
    [1, 2] [3] false false).1

/-- C2: zero-padded chunk keys sort lexicographically in numeric order for
all indices below the width-6 capacity of 1,000,000, and the correspondence
breaks at the boundary: the key of index 1,000,000 sorts strictly before the
key of index 999,999. -/
theorem c2_zero_padded_key_order (sid m : String) (i j : Nat)
    (hij : i < j) (hj : j < 1000000) :
    chunkObjectPath sid (i : Int) m < chunkObjectPath sid (j : Int) m ∧
    chunkObjectPath sid (1000000 : Int) m < chunkObjectPath sid (999999 : Int) m := by
  constructor
  · rw [String.lt_iff_toList_lt]
    show List.Lex (· < ·) (chunkObjectPath sid (i : Int) m).data
      (chunkObjectPath sid (j : Int) m).data
    rw [chunkKey_data sid m i (Nat.lt_trans hij hj), chunkKey_data sid m j hj]
    apply lex_append_left
    have hjpow : j < 10 ^ 6 := by
      have : (10:ℕ) ^ 6 = 1000000 := by norm_num
      omega
    exact lex_append_of_lt (fixedDigits_lt 6 i j hij hjpow)
      (by rw [fixedDigits_length, fixedDigits_length]) _ _
  · rw [String.lt_iff_toList_lt]
    show List.Lex (· < ·) (chunkObjectPath sid (1000000 : Int) m).data
      (chunkObjectPath sid (999999 : Int) m).data
    have p1 : padStart (Int.repr (1000000 : Int)) 6 '0' = "1000000" := rfl
    have p2 : padStart (Int.repr (999999 : Int)) 6 '0' = "999999" := rfl
    unfold chunkObjectPath
    rw [p1, p2]
    simp only [String.data_append, List.append_assoc]
    apply lex_append_left
    apply lex_append_left
    show List.Lex (· < ·) ('1' :: _) ('9' :: _)
    exact List.Lex.rel (by decide)

/-- C2 witness at a concrete input. -/
theorem c2_zero_padded_key_order_witness :
    chunkObjectPath ("abc123ts") (3 : Int) ("video/webm") <
      chunkObjectPath ("abc123ts") (17 : Int) ("video/webm") ∧
    chunkObjectPath ("abc123ts") (1000000 : Int) ("video/webm") <
      chunkObjectPath ("abc123ts") (999999 : Int) ("video/webm") :=
  c2_zero_padded_key_order ("abc123ts") ("video/webm") 3 17 (by decide) (by decide)

/-- C3: a sessionId failing the safe-character/length validation — such as
"bad id!" — is rejected with the invalid-session error before anything else
happens: the bucket state is returned untouched (no write attempt) and no
credential resolution takes place. -/
theorem c3_invalid_session_rejected
    (b64 : String → Bool) (env : Env) (store : Store) (sid m : String) (i : Int)
    (p : List Nat) (wf af : Bool) (hs : isValidSessionId sid = false) :
    chunkPOST b64 env store sid i m p wf af =
      ⟨ChunkResult.invalidSession, store, none⟩ ∧
    isValidSessionId ("bad id!") = false := by
  refine ⟨?_, by decide⟩
  simp [chunkPOST, hs]

/-- C3 witness at the concrete input "bad id!". -/
theorem c3_invalid_session_rejected_witness :
    chunkPOST (fun _ => false) {} ⟨[], 0⟩ ("bad id!") 0 ("video/webm") [1] false false =
      ⟨ChunkResult.invalidSession, ⟨[], 0⟩, none⟩ :=
  (c3_invalid_session_rejected (fun _ => false) {} ⟨[], 0⟩ ("bad id!")
    ("video/webm") 0 [1] false false (by decide)).1

/-- C4 counterexample: 1.5 is not an integer (no integer equals 3/2), yet
the chunk route's index guard accepts it, so the route does not fail with
the invalid-index error on every non-integer input. -/
theorem c4_counterexample :
    indexAccepted (JSNum.num (3 / 2)) = true ∧ ¬ ∃ k : ℤ, (3 / 2 : ℚ) = (k : ℚ) := by
  constructor
  · simp only [indexAccepted, JSNum.isFinite, JSNum.ltZero, Bool.true_and,
      Bool.not_eq_true', decide_eq_false_iff_not, not_lt]
    norm_num
  · rintro ⟨k, hk⟩
    have h2 : (3 : ℚ) = 2 * (k : ℚ) := by
      field_simp at hk
      linarith
    have h3 : (3 : ℤ) = 2 * k := by exact_mod_cast h2
    omega

/-- C4 amended: the chunk route's index guard accepts exactly the finite,
non-negative values — NaN, the infinities, and negatives are rejected, but
non-integers such as 1.5 pass — and a rejected index is refused with the
invalid-index error before any storage write, leaving the bucket state
untouched. -/
theorem c4_index_validation_amended :
    (∀ n : JSNum, indexAccepted n = true ↔ ∃ q : ℚ, n = JSNum.num q ∧ 0 ≤ q) ∧
    (∀ (b64 : String → Bool) (env : Env) (store : Store) (sid m : String)
      (i : Int) (p : List Nat) (wf af : Bool), isValidSessionId sid = true →
      i < 0 →
      chunkPOST b64 env store sid i m p wf af =
        ⟨ChunkResult.invalidIndex, store, none⟩) := by
  constructor
  · intro n
    cases n with
    | nan => simp [indexAccepted, JSNum.isFinite]
    | posInf => simp [indexAccepted, JSNum.isFinite]
    | negInf => simp [indexAccepted, JSNum.isFinite]
    | num q => simp [indexAccepted, JSNum.isFinite, JSNum.ltZero, not_lt]
  · intro b64 env store sid m i p wf af hs hi
    have hne := validSessionId_ne_empty hs
    have hrej := indexAccepted_intCast_neg hi
    simp [chunkPOST, hs, hne, hrej]

/-- C4 amended-claim witness at a concrete input. -/
theorem c4_index_validation_amended_witness :
    chunkPOST (fun _ => false) {} ⟨[], 0⟩ ("abc123ts") (-1) ("video/webm") [1]
        false false =
      ⟨ChunkResult.invalidIndex, ⟨[], 0⟩, none⟩ :=
  c4_index_validation_amended.2 (fun _ => false) {} ⟨[], 0⟩ ("abc123ts")
    ("video/webm") (-1) [1] false false (by decide) (by decide)

/-- C5 (recorder modelled from the spec, the chunk-uploading client being
absent from the provided sources): stopping an actively recording session
produces exactly one manifest-write attempt regardless of the number of
segments flushed (including zero), and that manifest's totalChunks equals
the total number of segments flushed, the final partial one included. -/
theorem c5_stop_exactly_one_manifest_write (r : Recorder)
    (h : r.state = RecState.recording) :
    manifestWrites (recStop r).2 = 1 ∧
    (recStop r).2.getLast? =
      some (RecorderAction.writeManifest ((recStop r).1.flushed)) ∧
    (recStop r).1.flushed = r.flushed + (if r.pendingBuf = [] then 0 else 1) := by
  unfold recStop
  rw [if_pos h]
  by_cases hp : r.pendingBuf = [] <;> simp [hp, manifestWrites]

/-- C5 witness: the zero-segment case. -/
theorem c5_stop_exactly_one_manifest_write_witness :
    manifestWrites (recStop ⟨RecState.recording, 0, []⟩).2 = 1 :=
  (c5_stop_exactly_one_manifest_write ⟨RecState.recording, 0, []⟩ rfl).1

/-- C6: an accepted manifest request writes, at the fixed key
`sessionId ++ "/manifest.json"` — overwriting whatever the store previously
held at that key — a record holding exactly the eight manifest fields: the
sessionId, the coerced totalChunks, the mimeType (defaulted to video/webm),
startedAt and endedAt (defaulted to the server clock `nowMs`), the
server-assigned `uploadedAt` (`nowIso`), the resolved bucket name, and
version 1. -/
theorem c6_manifest_fixed_key_and_fields (env : Env) (store : Store)
    (body : ManifestBody) (nowMs : Int) (nowIso : String) (af : Bool)
    (h : body.sessionId ≠ "") :
    (∃ u, (manifestPOST env store body nowMs nowIso false af).result =
      ManifestResult.ok (body.sessionId ++ "/manifest.json") u) ∧
    (getObject (manifestPOST env store body nowMs nowIso false af).store
        (body.sessionId ++ "/manifest.json")).map GObject.value =
      some (StoredValue.manifestVal
        ⟨body.sessionId, intOrZero body.totalChunks,
          jsOrD body.mimeType ("video/webm"), intOrD body.startedAt nowMs,
          intOrD body.endedAt nowMs, nowIso, resolveBucketName env, 1⟩) := by
  constructor
  · exact ⟨publicBaseUrl env ++ "/" ++ resolveBucketName env ++ "/" ++
      (body.sessionId ++ "/manifest.json"), by simp [manifestPOST, h]⟩
  · simp only [manifestPOST, h, if_neg, not_false_eq_true, Bool.false_eq_true,
      if_false, ite_false]
    by_cases hpub : (env.googleCloudPublicRead = some ("true") && !af) = true
    · rw [if_pos hpub, getObject_setPublic, getObject_putObject]
      rfl
    · rw [if_neg hpub, getObject_putObject]
      rfl

/-- C6 witness at a concrete input. -/
theorem c6_manifest_fixed_key_and_fields_witness :
    (getObject (manifestPOST {} ⟨[], 0⟩ ⟨"abc123ts", some 3, some ("video/webm"),
        some 100, some 200⟩ 250 ("2024-01-01T00:00:00.000Z") false false).store
      ("abc123ts" ++ "/manifest.json")).map GObject.value =
      some (StoredValue.manifestVal
        ⟨"abc123ts", intOrZero (some 3), jsOrD (some ("video/webm")) ("video/webm"),
          intOrD (some 100) 250, intOrD (some 200) 250,
          "2024-01-01T00:00:00.000Z", resolveBucketName {}, 1⟩) :=
  (c6_manifest_fixed_key_and_fields {} ⟨[], 0⟩ ⟨"abc123ts", some 3,
    some ("video/webm"), some 100, some 200⟩ 250 ("2024-01-01T00:00:00.000Z")
    false (by decide)).2


/-- C7: storage credential resolution is performed inside every accepted
call — both routes report the source resolved, as a pure function, from the
environment of that very call (no cache exists in the routes, which build a
fresh client per request) — and the precedence order is: the inline
structured payload wins whenever present; the discrete-field source is used
only when the inline payload is absent; ambient platform credentials are
used exactly when the inline payload is absent and the discrete-field
source is absent (or, on the chunk route, its key material is recognized in
none of the accepted shapes). -/
theorem c7_credential_resolution (b64 : String → Bool) (env : Env) :
    (strTruthy (saJsonRawOf env) = true →
      resolveCredChunk b64 env = CredSource.inlineJson ((saJsonRawOf env).getD ("")) ∧
      resolveCredManifest env = CredSource.inlineJson ((saJsonRawOf env).getD (""))) ∧
    (∀ pj ce km, resolveCredChunk b64 env = CredSource.discreteFields pj ce km →
      strTruthy (saJsonRawOf env) = false) ∧
    (∀ pj ce km, resolveCredManifest env = CredSource.discreteFields pj ce km →
      strTruthy (saJsonRawOf env) = false) ∧
    (resolveCredChunk b64 env = CredSource.ambient ↔
      strTruthy (saJsonRawOf env) = false ∧
      ((strTruthy (jsOr env.googleCloudProjectId env.gcpProjectId) &&
          strTruthy env.googleCloudClientEmail &&
          strTruthy (jsOr env.googleApplicationCredentials
            env.googleCloudPrivateKey)) = false ∨
        (((jsOr env.googleApplicationCredentials
            env.googleCloudPrivateKey).getD ("")).trim.startsWith ("\x7b") = false ∧
          jsIncludes ((jsOr env.googleApplicationCredentials
            env.googleCloudPrivateKey).getD ("")) ("BEGIN PRIVATE KEY") = false ∧
          b64 ((jsOr env.googleApplicationCredentials
            env.googleCloudPrivateKey).getD ("")) = false))) ∧
    (resolveCredManifest env = CredSource.ambient ↔
      strTruthy (saJsonRawOf env) = false ∧
      (strTruthy env.googleCloudProjectId && strTruthy env.googleCloudClientEmail &&
        strTruthy env.googleApplicationCredentials) = false) ∧
    (∀ (store : Store) (sid m : String) (i : Int) (p : List Nat) (wf af : Bool),
      isValidSessionId sid = true → 0 ≤ i →
      (chunkPOST b64 env store sid i m p wf af).credUsed =
        some (resolveCredChunk b64 env)) ∧
    (∀ (store : Store) (body : ManifestBody) (nowMs : Int) (nowIso : String)
      (wf af : Bool), body.sessionId ≠ "" →
      (manifestPOST env store body nowMs nowIso wf af).credUsed =
        some (resolveCredManifest env)) := by
  refine ⟨?_, ?_, ?_, ?_, ?_, ?_, ?_⟩
  · intro h1
    exact ⟨by simp [resolveCredChunk, h1], by simp [resolveCredManifest, h1]⟩
  · intro pj ce km hres
    by_cases h1 : strTruthy (saJsonRawOf env) = true
    · exfalso
      simp [resolveCredChunk, h1] at hres
    · simpa using h1
  · intro pj ce km hres
    by_cases h1 : strTruthy (saJsonRawOf env) = true
    · exfalso
      simp [resolveCredManifest, h1] at hres
    · simpa using h1
  · constructor
    · intro hres
      by_cases h1 : strTruthy (saJsonRawOf env) = true
      · exfalso
        simp [resolveCredChunk, h1] at hres
      · refine ⟨by simpa using h1, ?_⟩
        by_cases h2 : (strTruthy (jsOr env.googleCloudProjectId env.gcpProjectId) &&
            strTruthy env.googleCloudClientEmail &&
            strTruthy (jsOr env.googleApplicationCredentials
              env.googleCloudPrivateKey)) = true
        · right
          by_cases ha : (((jsOr env.googleApplicationCredentials
              env.googleCloudPrivateKey).getD ("")).trim.startsWith ("\x7b")) = true
          · exfalso
            simp [resolveCredChunk, h1, h2, ha] at hres
          · by_cases hb : jsIncludes ((jsOr env.googleApplicationCredentials
                env.googleCloudPrivateKey).getD ("")) ("BEGIN PRIVATE KEY") = true
            · exfalso
              simp [resolveCredChunk, h1, h2, ha, hb] at hres
            · by_cases hc : b64 ((jsOr env.googleApplicationCredentials
                  env.googleCloudPrivateKey).getD ("")) = true
              · exfalso
                simp [resolveCredChunk, h1, h2, ha, hb, hc] at hres
              · exact ⟨by simpa using ha, by simpa using hb, by simpa using hc⟩
        · left
          simpa using h2
    · rintro ⟨h1, h2 | ⟨ha, hb, hc⟩⟩
      · simp [resolveCredChunk, h1, h2]
      · by_cases h2 : (strTruthy (jsOr env.googleCloudProjectId env.gcpProjectId) &&
            strTruthy env.googleCloudClientEmail &&
            strTruthy (jsOr env.googleApplicationCredentials
              env.googleCloudPrivateKey)) = true
        · simp [resolveCredChunk, h1, h2, ha, hb, hc]
        · simp [resolveCredChunk, h1, h2]
  · constructor
    · intro hres
      by_cases h1 : strTruthy (saJsonRawOf env) = true
      · exfalso
        simp [resolveCredManifest, h1] at hres
      · refine ⟨by simpa using h1, ?_⟩
        by_cases h2 : (strTruthy env.googleCloudProjectId &&
            strTruthy env.googleCloudClientEmail &&
            strTruthy env.googleApplicationCredentials) = true
        · exfalso
          simp [resolveCredManifest, h1, h2] at hres
        · simpa using h2
    · rintro ⟨h1, h2⟩
      simp [resolveCredManifest, h1, h2]
  · intro store sid m i p wf af hs hi
    have hne := validSessionId_ne_empty hs
    have hidx := indexAccepted_intCast hi
    cases wf <;> simp [chunkPOST, hs, hne, hidx]
  · intro store body nowMs nowIso wf af h
    cases wf <;> simp [manifestPOST, h]

/-- C7 witness at a concrete environment holding an inline payload. -/
theorem c7_credential_resolution_witness :
    resolveCredChunk (fun _ => false) { gcpServiceAccountKey := some ("x") } =
      CredSource.inlineJson
        ((saJsonRawOf { gcpServiceAccountKey := some ("x") }).getD ("")) :=
  ((c7_credential_resolution (fun _ => false)
    { gcpServiceAccountKey := some ("x") }).1 (by decide)).1

/-- C8: when the object write succeeds, a failure of the best-effort
makePublic call never changes the caller-visible result: for both routes the
response is identical whatever the ACL outcome, and even with the ACL call
failing it is the success response carrying the object key and public
address. -/
theorem c8_acl_failure_swallowed (b64 : String → Bool) (env : Env)
    (store : Store) (sid m : String) (i : Int) (p : List Nat)
    (body : ManifestBody) (nowMs : Int) (nowIso : String)
    (hs : isValidSessionId sid = true) (hi : 0 ≤ i) (hb : body.sessionId ≠ "") :
    (∀ a1 a2 : Bool, (chunkPOST b64 env store sid i m p false a1).result =
      (chunkPOST b64 env store sid i m p false a2).result) ∧
    (chunkPOST b64 env store sid i m p false true).result =
      ChunkResult.ok (chunkObjectPath sid i m)
        (publicBaseUrl env ++ "/" ++ resolveBucketName env ++ "/" ++
          chunkObjectPath sid i m) ∧
    (∀ a1 a2 : Bool, (manifestPOST env store body nowMs nowIso false a1).result =
      (manifestPOST env store body nowMs nowIso false a2).result) ∧
    (manifestPOST env store body nowMs nowIso false true).result =
      ManifestResult.ok (body.sessionId ++ "/manifest.json")
        (publicBaseUrl env ++ "/" ++ resolveBucketName env ++ "/" ++
          (body.sessionId ++ "/manifest.json")) := by
  have hne := validSessionId_ne_empty hs
  have hidx := indexAccepted_intCast hi
  refine ⟨?_, ?_, ?_, ?_⟩
  · intro a1 a2
    simp [chunkPOST, hs, hne, hidx]
  · simp [chunkPOST, hs, hne, hidx]
  · intro a1 a2
    simp [manifestPOST, hb]
  · simp [manifestPOST, hb]

/-- C8 witness at a concrete input with the ACL call failing. -/
theorem c8_acl_failure_swallowed_witness :
    (chunkPOST (fun _ => false) {} ⟨[], 0⟩ ("abc123ts") 0 ("video/webm") [7]
        false true).result =
      ChunkResult.ok (chunkObjectPath ("abc123ts") 0 ("video/webm"))
        (publicBaseUrl {} ++ "/" ++ resolveBucketName {} ++ "/" ++
          chunkObjectPath ("abc123ts") 0 ("video/webm")) :=
  (c8_acl_failure_swallowed (fun _ => false) {} ⟨[], 0⟩ ("abc123ts")
    ("video/webm") 0 [7] ⟨"abc123ts", none, none, none, none⟩ 0 ("t")
    (by decide) (by decide) (by decide)).2.1

/-- C9: the manifest route validates only that the sessionId is a non-empty
string: every non-empty sessionId — including values the segment route's
validation rejects, such as "bad id!" (space and bang), "ab" (too short),
and "a/b/c/d" (slashes) — proceeds to an object-write attempt whose key
embeds the sessionId directly. -/
theorem c9_manifest_skips_session_validation (env : Env) (store : Store)
    (body : ManifestBody) (nowMs : Int) (nowIso : String) (wf af : Bool)
    (h : body.sessionId ≠ "") :
    ((manifestPOST env store body nowMs nowIso wf af).store.writeAttempts =
      store.writeAttempts + 1) ∧
    (wf = false → ∃ u, (manifestPOST env store body nowMs nowIso wf af).result =
      ManifestResult.ok (body.sessionId ++ "/manifest.json") u) ∧
    isValidSessionId ("bad id!") = false ∧
    isValidSessionId ("ab") = false ∧
    isValidSessionId ("a/b/c/d") = false := by
  refine ⟨?_, ?_, by decide, by decide, by decide⟩
  · cases wf
    · by_cases hpub : (env.googleCloudPublicRead = some ("true") && !af) = true <;>
        simp [manifestPOST, h, hpub, putObject, setPublic, recordAttempt]
    · simp [manifestPOST, h, recordAttempt]
  · rintro rfl
    exact ⟨publicBaseUrl env ++ "/" ++ resolveBucketName env ++ "/" ++
      (body.sessionId ++ "/manifest.json"), by simp [manifestPOST, h]⟩

/-- C9 witness at the concrete sessionId "bad id!". -/
theorem c9_manifest_skips_session_validation_witness :
    (manifestPOST {} ⟨[], 0⟩ ⟨"bad id!", none, none, none, none⟩ 0 ("t")
      false false).store.writeAttempts = 0 + 1 :=
  (c9_manifest_skips_session_validation {} ⟨[], 0⟩
    ⟨"bad id!", none, none, none, none⟩ 0 ("t") false false (by decide)).1

/-- C10: with VAPI_SERVER_API_KEY set to a non-empty value, the health
route's outcome is identical for any two client-supplied keys (the server
key shadows them); the combined key is the server key whenever the server
key is truthy, and is the client key exactly when the server key is absent
or empty. -/
theorem c10_server_key_shadows_client (upstream : String → UpstreamResp)
    (sk : String) (hsk : sk ≠ "") :
    (∀ pk1 pk2 : Option String,
      healthPOST upstream (some sk) pk1 = healthPOST upstream (some sk) pk2) ∧
    (∀ pk : Option String, jsOr (some sk) pk = some sk) ∧
    (∀ serverKey pk : Option String, strTruthy serverKey = false →
      jsOr serverKey pk = pk) := by
  refine ⟨?_, ?_, ?_⟩
  · intro pk1 pk2
    simp [healthPOST, jsOr, strTruthy, hsk]
  · intro pk
    simp [jsOr, strTruthy, hsk]
  · intro serverKey pk h
    simp [jsOr, h]

/-- C10 witness: two requests differing only in the client key, same
outcome. -/
theorem c10_server_key_shadows_client_witness :
    healthPOST (fun _ => UpstreamResp.ok 0) (some ("k1")) (some ("client-key")) =
      healthPOST (fun _ => UpstreamResp.ok 0) (some ("k1")) none :=
  (c10_server_key_shadows_client (fun _ => UpstreamResp.ok 0) ("k1")
    (by decide)).1 (some ("client-key")) none

end Vapi
